import Mathlib

/-!
Verification of the git source-synchronization logic of cerbero
(`cerbero/build/source.py` and `cerbero/utils/git.py`).

The repository state is embedded shallowly: the outcome of the external
`git` binary (resolution of revision expressions, ancestry queries,
`rev-list` output, rebase success) is part of the state as oracle
functions, while every mutation the code performs (resets, rebases,
ref writes, remote registration) is recorded explicitly so that frame
properties can be stated.  The control flow of `GitCache._checkout`,
`GitCache._get_checkout_recipe_rev`, `GitCache.fetch`,
`LocalTarball.extract` and the patch loop of `Git.extract` is translated
statement by statement from the source.
-/

namespace Cerbero

/-- A mutating git operation performed on the cached repository, recorded
in the order the code runs them. -/
inductive GitOp where
  | initRepo
  | addRemote (name url : String)
  | fetchAll
  | resetHard (commit : String)
  | rebase (onto : String)
  | rebaseAbort
  | writeRef (name value : String)
  deriving Repr, DecidableEq

/-- The warnings (`m.warning`) emitted by the synchronization code paths.
Informational `m.action`/`m.message` logging is omitted (out of scope:
logging/UI presentation). -/
inductive Msg where
  | refMissing
  | refOutOfSync
  | destructiveResetWarning
  | localCommitsWarning
  | cannotFigureOutWarning
  deriving Repr, DecidableEq

/-- State of the cached git repository together with the oracles that
describe what the external `git` binary would answer.  `resolve` gives the
commit hash of a revision expression other than `HEAD`; `isAncestor`,
`revList`, `rebaseOk`, `rebasedHead` and `rebaseErr` describe ancestry
queries, `git rev-list` output and the outcome of `git rebase`. -/
structure GitRepoState where
  onDisk : Bool
  headHash : String
  refs : List (String × String)
  resolve : String → String
  isAncestor : String → String → Bool
  revList : String → List String
  rebaseOk : String → Bool
  rebasedHead : String → String
  rebaseErr : String
  midRebase : Bool
  savedHead : String
  log : List GitOp
  msgs : List Msg

/-- Append a warning message (`m.warning`). -/
def warn (w : GitRepoState) (msg : Msg) : GitRepoState :=
  { w with msgs := w.msgs ++ [msg] }

/-- `git.init` (git.py 34-42): `mkdir -p` followed by `git init`. -/
def git.init (w : GitRepoState) : GitRepoState :=
  { w with onDisk := true, log := w.log ++ [GitOp.initRepo] }

/-- `git.get_hash` (git.py 136-147): `git show -s --pretty=%H commit`,
the commit hash denoted by a revision expression in the current state. -/
def git.get_hash (w : GitRepoState) (commit : String) : String :=
  if commit = "HEAD" then w.headHash else w.resolve commit

/-- `git.checkout` (git.py 123-133): `git reset --hard commit`. -/
def git.checkout (w : GitRepoState) (commit : String) : GitRepoState :=
  { w with headHash := git.get_hash w commit,
           log := w.log ++ [GitOp.resetHard commit] }

/-- `git.fetch` (git.py 111-120): `git fetch --all`; with `fail := false`
a failure is tolerated, so fetching never raises here. -/
def git.fetch (w : GitRepoState) (fail : Bool) : GitRepoState :=
  { w with log := w.log ++ [GitOp.fetchAll] }

/-- `git.add_remote` (git.py 181-197): `git remote add`, falling back to
`git remote set-url`; only the remote configuration is touched. -/
def git.add_remote (w : GitRepoState) (name url : String) : GitRepoState :=
  { w with log := w.log ++ [GitOp.addRemote name url] }

/-- Modelled from the spec: `read_ref` is called by
`GitCache._get_checkout_recipe_rev` but is absent from
cerbero/utils/git.py.  Per the spec, the CheckoutMarker storage is "a
single named reference inside the repository's metadata store"; reading
an absent reference yields nothing. -/
def git.read_ref (w : GitRepoState) (name : String) : Option String :=
  (w.refs.find? (fun p => p.1 == name)).map Prod.snd

/-- Modelled from the spec: `write_ref` is called by `GitCache.fetch` but
is absent from cerbero/utils/git.py.  Per the spec, it writes/overwrites
the single named reference in the repository's metadata store. -/
def git.write_ref (w : GitRepoState) (name value : String) : GitRepoState :=
  { w with refs := (name, value) :: w.refs.filter (fun p => p.1 ≠ name),
           log := w.log ++ [GitOp.writeRef name value] }

/-- Modelled from the spec: `rev_list` is called by `GitCache._checkout`
but is absent from cerbero/utils/git.py.  For a range `r..` it returns
the commits reachable from HEAD but not from `r`; the answer is given by
the state's `revList` oracle. -/
def git.rev_list (w : GitRepoState) (range : String) : List String :=
  w.revList range

/-- Modelled from the spec: `revision_is_ancestor` is called by
`GitCache._checkout` and `_get_checkout_recipe_rev` but is absent from
cerbero/utils/git.py.  It answers the repository-history ancestry query
"is `a` an ancestor of `b`?", given by the state's `isAncestor` oracle. -/
def git.revision_is_ancestor (w : GitRepoState) (a b : String) : Bool :=
  w.isAncestor a b

/-- Modelled from the spec: `rebase` is called by `GitCache._checkout` but
is absent from cerbero/utils/git.py.  It replays the local commits on top
of `onto`; on conflict it raises, leaving the repository mid-rebase (with
the original HEAD saved so that an abort can restore it). -/
def git.rebase (w : GitRepoState) (onto : String) : GitRepoState × Bool :=
  if w.rebaseOk onto then
    ({ w with savedHead := w.headHash, headHash := w.rebasedHead onto,
              log := w.log ++ [GitOp.rebase onto] }, true)
  else
    ({ w with savedHead := w.headHash, headHash := "(mid-rebase)",
              midRebase := true, log := w.log ++ [GitOp.rebase onto] }, false)

/-- Modelled from the spec: `rebase_abort` is called by
`GitCache._checkout` but is absent from cerbero/utils/git.py.  Per the
spec it aborts an in-progress rebase, "restoring the pre-attempt state
exactly": HEAD gets back its saved value and the mid-rebase condition is
cleared. -/
def git.rebase_abort (w : GitRepoState) : GitRepoState :=
  { w with headHash := w.savedHead, midRebase := false,
           log := w.log ++ [GitOp.rebaseAbort] }

/-- Python's `a or b` for the optional per-recipe commit override
(`self.config.recipe_commit(self.name) or self.commit`): an absent or
empty ("falsy") override falls back to the recipe's own commit. -/
def pyOr (a : Option String) (b : String) : String :=
  match a with
  | some s => if s = "" then b else s
  | none => b

/-- The configuration values read by the synchronization path:
`config.recipe_commit(name)` (already looked up for this recipe) and
`config.fetch_resets_repository`. -/
structure Config where
  recipeCommitOverride : Option String
  fetch_resets_repository : Bool

/-- `GitCache.checkout_rev` (source.py 131): the name of the marker ref. -/
def GitCache.checkout_rev : String := "cerbero-checkout"

/-- `GitCache._get_checkout_recipe_rev` (source.py 144-159): read the
marker ref; warn and return nothing when it is absent or when it is not
an ancestor of the current HEAD. -/
def GitCache._get_checkout_recipe_rev (w : GitRepoState) :
    GitRepoState × Option String :=
  match git.read_ref w GitCache.checkout_rev with
  | none => (warn w Msg.refMissing, none)
  | some checkout_recipe_rev =>
      if git.revision_is_ancestor w checkout_recipe_rev "HEAD" = false then
        (warn w Msg.refOutOfSync, none)
      else
        (w, some checkout_recipe_rev)

/-- The classification step of `GitCache._checkout` (source.py 179-193):
with a known marker, `have_local_commits` is whether `rev-list marker..`
is non-empty and `moving_forward` is whether the marker is an ancestor of
the target; with an unknown marker, local commits are conservatively
assumed and `moving_forward` is whether HEAD is an ancestor of the
target. -/
def GitCache.classify (w : GitRepoState) (marker : Option String)
    (commit : String) : Bool × Bool :=
  match marker with
  | some checkout_recipe_rev =>
      (decide ((git.rev_list w (checkout_recipe_rev ++ "..")).length > 0),
       git.revision_is_ancestor w checkout_recipe_rev commit)
  | none =>
      (true, git.revision_is_ancestor w "HEAD" commit)

/-- The message of the final `FatalError` of `GitCache._checkout`
(source.py 231-232). -/
def couldNotUpdateMsg : String := "Could not update repository to revision"

/-- `GitCache._checkout` (source.py 161-232), translated statement by
statement; the returned value is the second component, the repository
state after the call the first. -/
def GitCache._checkout (cfg : Config) (selfCommit : String)
    (w : GitRepoState) (new_repo : Bool) :
    GitRepoState × Except String String :=
  let commit := pyOr cfg.recipeCommitOverride selfCommit
  if new_repo then
    (git.checkout w commit, Except.ok commit)
  else
    let head := git.get_hash w "HEAD"
    if commit = head then
      (w, Except.ok commit)
    else
      let res := GitCache._get_checkout_recipe_rev w
      let w := res.1
      let lc := GitCache.classify w res.2 commit
      let have_local_commits := lc.1
      let moving_forward := lc.2
      if have_local_commits = false then
        (git.checkout w commit, Except.ok commit)
      else if moving_forward then
        let reb := git.rebase w commit
        if reb.2 then
          (reb.1, Except.ok commit)
        else
          (git.rebase_abort reb.1, Except.error w.rebaseErr)
      else if cfg.fetch_resets_repository then
        (git.checkout (warn w Msg.destructiveResetWarning) commit,
         Except.ok commit)
      else
        let w := if have_local_commits then warn w Msg.localCommitsWarning
                 else warn w Msg.cannotFigureOutWarning
        (w, Except.error couldNotUpdateMsg)

/-- `GitCache.fetch` (source.py 234-247): initialize the repository when
absent, (re-)register the remotes, fetch tolerantly, then check out and
record the marker ref. -/
def GitCache.fetch (cfg : Config) (selfCommit : String)
    (remotes : List (String × String)) (w : GitRepoState)
    (checkout : Bool) : GitRepoState × Except String Unit :=
  let step1 :=
    if w.onDisk = false then (git.init w, true) else (w, false)
  let w := remotes.foldl (fun acc p => git.add_remote acc p.1 p.2) step1.1
  let new_repo := step1.2
  let w := git.fetch w false
  if checkout then
    match GitCache._checkout cfg selfCommit w new_repo with
    | (w, Except.ok commit) =>
        (git.write_ref w GitCache.checkout_rev commit, Except.ok ())
    | (w, Except.error e) => (w, Except.error e)
  else
    (w, Except.ok ())

/-- `GitCache.built_version` (source.py 249-250):
`'%s+git~%s' % (self.version, git.get_hash(self.repo_dir, self.commit))`. -/
def GitCache.built_version (version : String) (w : GitRepoState)
    (selfCommit : String) : String :=
  version ++ "+git~" ++ git.get_hash w selfCommit

/-- Python's `str.startswith`. -/
def pyStartsWith (s pre : String) : Bool := pre.data.isPrefixOf s.data

/-- Python's `str.endswith`. -/
def pyEndsWith (s post : String) : Bool := post.data.isSuffixOf s.data

/-- Follows the spec's words ("version + short hash of resolved commit"):
the short form of a commit hash, git's default 7-character abbreviation.
Used only to compare the spec's description with `GitCache.built_version`. -/
def shortHash (h : String) : String := String.mk (h.data.take 7)

/-- The names of the functions defined in cerbero/utils/git.py,
transcribed from the source (its complete list of `def` statements). -/
def gitModuleDefs : List String :=
  ["init", "clean", "list_tags", "create_tag", "delete_tag", "fetch",
   "checkout", "get_hash", "get_checkout_branch", "local_checkout",
   "add_remote", "check_line_endings", "init_directory", "apply_patch"]

/-- The `git.*` helpers invoked along `GitCache.fetch`'s
existing-repository synchronization path (source.py 144-247), transcribed
from the call sites in the source. -/
def gitCacheSyncHelpers : List String :=
  ["add_remote", "fetch", "get_hash", "read_ref", "revision_is_ancestor",
   "rev_list", "checkout", "rebase", "rebase_abort", "write_ref"]

/-- A directory listing of the relevant paths, standing for the parts of
the filesystem `LocalTarball` inspects; a path not listed does not exist
as a directory. -/
structure FileSys where
  dirs : List (String × List String)

/-- `os.path.isdir`. -/
def FileSys.isdir (fs : FileSys) (p : String) : Bool :=
  (fs.dirs.find? (fun d => d.1 == p)).isSome

/-- `os.listdir`. -/
def FileSys.listdir (fs : FileSys) (p : String) : List String :=
  ((fs.dirs.find? (fun d => d.1 == p)).map Prod.snd).getD []

/-- An external command issued by `LocalTarball.extract`: unpacking the
archive, or a call to `shell.apply_patch` with its two positional
arguments recorded exactly in the order the code passes them. -/
inductive ShellCall where
  | unpack (src dst : String)
  | apply_patch (arg1 arg2 : String)
  deriving Repr, DecidableEq

/-- Modelled from the spec: the Patch Applier contract is
`apply(patchPath, targetDir, strip)` (shell.apply_patch itself is not
under src/); the first positional argument is the patch file and the
second the target directory, with `strip` defaulting to 1. -/
structure PatchApply where
  patchPath : String
  targetDir : String
  strip : Nat
  deriving Repr, DecidableEq

/-- A recorded `shell.apply_patch` call read through the Patch Applier
contract: the first argument lands in the `patchPath` position, the
second in the `targetDir` position. -/
def interpApplyCall : ShellCall → Option PatchApply
  | ShellCall.apply_patch a1 a2 => some { patchPath := a1, targetDir := a2, strip := 1 }
  | _ => none

/-- `LocalTarball._apply_patches` (source.py 288-298): a missing
directory silently contributes nothing; otherwise every entry ending in
`.patch` is joined to the directory and passed to
`shell.apply_patch(self.build_dir, patch)` — the build directory first,
the patch second, exactly as the source writes the call. -/
def LocalTarball._apply_patches (fs : FileSys) (build_dir patches_dir : String) :
    List ShellCall :=
  if FileSys.isdir fs patches_dir = false then []
  else
    let patches := ((FileSys.listdir fs patches_dir).filter
        (fun x => pyEndsWith x ".patch")).map (fun x => patches_dir ++ "/" ++ x)
    patches.map (fun patch => ShellCall.apply_patch build_dir patch)

/-- `LocalTarball._find_tarball` (source.py 280-286): exactly one entry of
the cache directory starting with the package name, else a `FatalError`. -/
def LocalTarball._find_tarball (fs : FileSys) (repo_dir package_name : String) :
    Except String String :=
  let tarball := (FileSys.listdir fs repo_dir).filter
      (fun x => pyStartsWith x package_name)
  match tarball with
  | [t] => Except.ok (repo_dir ++ "/" ++ t)
  | _ => Except.error "The local repository does not have a valid tarball"

/-- `LocalTarball.extract` (source.py 270-278): locate the archive,
unpack it, then apply the cache-root patch tier followed by the
platform-subdirectory patch tier. -/
def LocalTarball.extract (fs : FileSys)
    (build_dir repo_dir platform_patches_dir package_name unpack_dir : String) :
    Except String (List ShellCall) :=
  match LocalTarball._find_tarball fs repo_dir package_name with
  | Except.error e => Except.error e
  | Except.ok tarball_path =>
      Except.ok ([ShellCall.unpack tarball_path unpack_dir]
        ++ LocalTarball._apply_patches fs build_dir repo_dir
        ++ LocalTarball._apply_patches fs build_dir platform_patches_dir)

/-- `os.path.isabs` on a POSIX path. -/
def os.path.isabs (p : String) : Bool := pyStartsWith p "/"

/-- Modelled from the spec: `Source.relative_path` is called by the patch
loops but is not under src/; per the spec, "patch paths that are not
absolute are resolved relative to the recipe's declared patch directory". -/
def Source.relative_path (patch_dir p : String) : String :=
  patch_dir ++ "/" ++ p

/-- A patch application dispatched by the patch loop. -/
inductive PatchCall where
  | gitAm (patch build_dir : String)
  | textPatch (patch build_dir : String) (strip : Nat)
  deriving Repr, DecidableEq

/-- `git.apply_patch` (git.py 235-246): `git am --ignore-whitespace`, the
commit-preserving application mode. -/
def git.apply_patch (patch git_dir : String) : PatchCall :=
  PatchCall.gitAm patch git_dir

/-- `shell.apply_patch` as called with three positional arguments
`(patch, build_dir, strip)`: the generic text-patch mode. -/
def shell.apply_patch3 (patch build_dir : String) (strip : Nat) : PatchCall :=
  PatchCall.textPatch patch build_dir strip

/-- The patch loop of `Git.extract` (source.py 333-340, identical in
`Tarball.extract` 117-123): resolve non-absolute paths against the patch
directory, then dispatch on the strip count. -/
def Git.patchCalls (patches : List String) (strip : Nat)
    (patch_dir build_dir : String) : List PatchCall :=
  patches.map (fun patch =>
    let patch := if os.path.isabs patch = false
                 then Source.relative_path patch_dir patch else patch
    if strip = 1 then git.apply_patch patch build_dir
    else shell.apply_patch3 patch build_dir strip)

/-! ## Theorems -/

/-- A concrete repository state with all oracles at inert defaults, used
(with updates) to exercise the definitions on concrete inputs. -/
def baseWorld : GitRepoState where
  onDisk := true
  headHash := "c1"
  refs := []
  resolve := fun s => s
  isAncestor := fun _ _ => false
  revList := fun _ => []
  rebaseOk := fun _ => false
  rebasedHead := fun _ => ""
  rebaseErr := "rebase conflict"
  midRebase := false
  savedHead := ""
  log := []
  msgs := []

/-- C1: for an existing repository whose marker is known (present and an
ancestor of HEAD) and whose `rev-list marker..` is empty (no local work),
`GitCache._checkout` succeeds and afterwards HEAD is exactly the hash of
the target revision, whatever HEAD was before; when HEAD was not already
that hash the update is a hard reset. -/
theorem claim_C1 (cfg : Config) (selfCommit : String) (w : GitRepoState)
    (r : String)
    (hres : w.resolve w.headHash = w.headHash)
    (href : git.read_ref w GitCache.checkout_rev = some r)
    (hanc : git.revision_is_ancestor w r "HEAD" = true)
    (hempty : git.rev_list w (r ++ "..") = []) :
    (GitCache._checkout cfg selfCommit w false).2 =
        Except.ok (pyOr cfg.recipeCommitOverride selfCommit) ∧
    (GitCache._checkout cfg selfCommit w false).1.headHash =
        git.get_hash w (pyOr cfg.recipeCommitOverride selfCommit) ∧
    (pyOr cfg.recipeCommitOverride selfCommit ≠ w.headHash →
      (GitCache._checkout cfg selfCommit w false).1.log =
        w.log ++ [GitOp.resetHard (pyOr cfg.recipeCommitOverride selfCommit)]) := by
  have hhead : git.get_hash w "HEAD" = w.headHash := by simp [git.get_hash]
  by_cases heq : pyOr cfg.recipeCommitOverride selfCommit = w.headHash
  · simp [GitCache._checkout, hhead, heq, git.get_hash, hres, ite_self]
  · simp only [GitCache._checkout, hhead, if_neg heq, Bool.false_eq_true,
      if_false, GitCache._get_checkout_recipe_rev, href]
    rw [hanc]
    simp [GitCache.classify, hempty, git.checkout]

/-- Concrete state for the C1 witness: HEAD at `c1`, marker `m1` present
and an ancestor of HEAD, no local commits, `origin/b` resolving to `c2`. -/
def cleanWorld : GitRepoState :=
  { baseWorld with
      refs := [("cerbero-checkout", "m1")],
      resolve := fun s => if s = "origin/b" then "c2" else s,
      isAncestor := fun _ _ => true }

/-- Witness for C1 at `cleanWorld` with target `origin/b`. -/
theorem claim_C1_witness :
    (GitCache._checkout ⟨none, false⟩ "origin/b" cleanWorld false).2 =
        Except.ok "origin/b" ∧
    (GitCache._checkout ⟨none, false⟩ "origin/b" cleanWorld false).1.headHash =
        git.get_hash cleanWorld "origin/b" ∧
    ("origin/b" ≠ cleanWorld.headHash →
      (GitCache._checkout ⟨none, false⟩ "origin/b" cleanWorld false).1.log =
        cleanWorld.log ++ [GitOp.resetHard "origin/b"]) :=
  claim_C1 ⟨none, false⟩ "origin/b" cleanWorld "m1" rfl rfl rfl rfl

/-- C2: with local work present (marker known, `rev-list marker..`
non-empty) and the target a descendant of the marker, `_checkout`
attempts a rebase; when the rebase raises, the rebase is aborted, the
same error is re-raised, and HEAD, the refs and the (no longer
mid-rebase) working state are exactly as before the attempt; the
operation log shows exactly the rebase followed by its abort. -/
theorem claim_C2 (cfg : Config) (selfCommit : String) (w : GitRepoState)
    (r : String)
    (hne : pyOr cfg.recipeCommitOverride selfCommit ≠ w.headHash)
    (href : git.read_ref w GitCache.checkout_rev = some r)
    (hanc : git.revision_is_ancestor w r "HEAD" = true)
    (hlocal : (git.rev_list w (r ++ "..")).length > 0)
    (hfwd : git.revision_is_ancestor w r
        (pyOr cfg.recipeCommitOverride selfCommit) = true)
    (hfail : w.rebaseOk (pyOr cfg.recipeCommitOverride selfCommit) = false)
    (hmid : w.midRebase = false) :
    (GitCache._checkout cfg selfCommit w false).2 = Except.error w.rebaseErr ∧
    (GitCache._checkout cfg selfCommit w false).1.headHash = w.headHash ∧
    (GitCache._checkout cfg selfCommit w false).1.refs = w.refs ∧
    (GitCache._checkout cfg selfCommit w false).1.midRebase = w.midRebase ∧
    (GitCache._checkout cfg selfCommit w false).1.log =
      w.log ++ [GitOp.rebase (pyOr cfg.recipeCommitOverride selfCommit),
                GitOp.rebaseAbort] := by
  have hhead : git.get_hash w "HEAD" = w.headHash := by simp [git.get_hash]
  have hl : decide ((git.rev_list w (r ++ "..")).length > 0) = true :=
    decide_eq_true hlocal
  simp only [GitCache._checkout, hhead, if_neg hne,
    GitCache._get_checkout_recipe_rev, href]
  rw [hanc]
  simp [GitCache.classify, hl, hfwd, git.rebase, hfail, git.rebase_abort, hmid]

/-- Concrete state for the C2 witness: valid marker `m1`, one local
commit `L1`, every rebase failing. -/
def rebaseFailWorld : GitRepoState :=
  { baseWorld with
      refs := [("cerbero-checkout", "m1")],
      isAncestor := fun _ _ => true,
      revList := fun _ => ["L1"] }

/-- Witness for C2 at `rebaseFailWorld` with target `origin/b`. -/
theorem claim_C2_witness :
    (GitCache._checkout ⟨none, false⟩ "origin/b" rebaseFailWorld false).2 =
        Except.error rebaseFailWorld.rebaseErr ∧
    (GitCache._checkout ⟨none, false⟩ "origin/b" rebaseFailWorld false).1.headHash =
        rebaseFailWorld.headHash ∧
    (GitCache._checkout ⟨none, false⟩ "origin/b" rebaseFailWorld false).1.refs =
        rebaseFailWorld.refs ∧
    (GitCache._checkout ⟨none, false⟩ "origin/b" rebaseFailWorld false).1.midRebase =
        rebaseFailWorld.midRebase ∧
    (GitCache._checkout ⟨none, false⟩ "origin/b" rebaseFailWorld false).1.log =
        rebaseFailWorld.log ++ [GitOp.rebase "origin/b", GitOp.rebaseAbort] :=
  claim_C2 ⟨none, false⟩ "origin/b" rebaseFailWorld "m1" (by decide) rfl rfl
    (by decide) rfl rfl rfl

/-- C3 (code bug): on the failure path with the marker unknown, the
target not a descendant of HEAD and destructive resync disallowed,
`_checkout` emits the "repository contains local commits" warning — not
the "couldn't figure out" one — because at that point `have_local_commits`
is always true (the marker-unknown branch set it to true, and a false
value returned earlier), so the second message is unreachable and the two
causes are not distinguished. -/
theorem claim_C3_bug :
    git.read_ref baseWorld GitCache.checkout_rev = none ∧
    git.revision_is_ancestor baseWorld "HEAD" "origin/b" = false ∧
    (GitCache._checkout ⟨none, false⟩ "origin/b" baseWorld false).2 =
        Except.error couldNotUpdateMsg ∧
    (GitCache._checkout ⟨none, false⟩ "origin/b" baseWorld false).1.msgs =
        [Msg.refMissing, Msg.localCommitsWarning] ∧
    Msg.cannotFigureOutWarning ∉
        (GitCache._checkout ⟨none, false⟩ "origin/b" baseWorld false).1.msgs := by
  refine ⟨rfl, rfl, rfl, rfl, ?_⟩
  decide

/-- C4: the marker is treated as unknown (with a warning) when the ref is
absent or when it is not an ancestor of the current HEAD; a marker value
is only ever produced when it is an ancestor of HEAD; and with an unknown
marker the classification assumes local work and computes
`moving_forward` as `isAncestor(HEAD, target)`. -/
theorem claim_C4 (w : GitRepoState) (r commit : String) :
    (git.read_ref w GitCache.checkout_rev = none →
      (GitCache._get_checkout_recipe_rev w).2 = none ∧
      (GitCache._get_checkout_recipe_rev w).1.msgs =
        w.msgs ++ [Msg.refMissing]) ∧
    (git.read_ref w GitCache.checkout_rev = some r →
      git.revision_is_ancestor w r "HEAD" = false →
      (GitCache._get_checkout_recipe_rev w).2 = none ∧
      (GitCache._get_checkout_recipe_rev w).1.msgs =
        w.msgs ++ [Msg.refOutOfSync]) ∧
    ((GitCache._get_checkout_recipe_rev w).2 = some r →
      git.read_ref w GitCache.checkout_rev = some r ∧
      git.revision_is_ancestor w r "HEAD" = true) ∧
    GitCache.classify w none commit =
      (true, git.revision_is_ancestor w "HEAD" commit) := by
  refine ⟨?_, ?_, ?_, rfl⟩
  · intro h
    simp [GitCache._get_checkout_recipe_rev, h, warn]
  · intro h hanc
    simp [GitCache._get_checkout_recipe_rev, h, hanc, warn]
  · intro h
    cases hr : git.read_ref w GitCache.checkout_rev with
    | none =>
        simp only [GitCache._get_checkout_recipe_rev, hr] at h
        exact absurd h (by simp)
    | some r0 =>
        simp only [GitCache._get_checkout_recipe_rev, hr] at h
        by_cases ha : git.revision_is_ancestor w r0 "HEAD" = false
        · rw [if_pos ha] at h
          simp at h
        · rw [if_neg ha] at h
          simp only [Option.some.injEq] at h
          subst h
          exact ⟨rfl, by simpa using ha⟩

/-- Witness for C4 at `baseWorld`, whose marker ref is absent. -/
theorem claim_C4_witness :
    (GitCache._get_checkout_recipe_rev baseWorld).2 = none ∧
    (GitCache._get_checkout_recipe_rev baseWorld).1.msgs =
      baseWorld.msgs ++ [Msg.refMissing] :=
  (claim_C4 baseWorld "m1" "origin/b").1 rfl

/-- Reading back the reference just written. -/
theorem git.read_ref_write_ref (w : GitRepoState) (name value : String) :
    git.read_ref (git.write_ref w name value) name = some value := by
  simp [git.read_ref, git.write_ref]

/-- Every success of `_checkout` returns the target revision expression
`recipe_commit(name) or self.commit` itself (never a resolved hash). -/
theorem GitCache._checkout_ok_val (cfg : Config) (selfCommit : String)
    (w : GitRepoState) (nr : Bool) (c : String)
    (h : (GitCache._checkout cfg selfCommit w nr).2 = Except.ok c) :
    c = pyOr cfg.recipeCommitOverride selfCommit := by
  simp only [GitCache._checkout, apply_ite Prod.snd] at h
  repeat' split at h
  all_goals simp_all

/-- C5 (counterexample): on `cleanWorld` the target `origin/b` resolves
to the hash `c2`, yet the successful synchronization returns the literal
expression `origin/b`, which is not that resolved hash. -/
theorem claim_C5_cex :
    (GitCache._checkout ⟨none, false⟩ "origin/b" cleanWorld false).2 =
        Except.ok "origin/b" ∧
    cleanWorld.resolve "origin/b" = "c2" ∧
    "origin/b" ≠ "c2" := by
  exact ⟨rfl, rfl, by decide⟩

/-- C5 (amended): a successful synchronization returns the target
revision expression as given (not resolved to a hash), and every
successful `fetch` with checkout enabled — fresh clone or not — leaves
the CheckoutMarker ref recorded as exactly that expression. -/
theorem claim_C5_amended (cfg : Config) (selfCommit : String)
    (remotes : List (String × String)) (w w' : GitRepoState) (nr : Bool)
    (c : String)
    (h1 : GitCache.fetch cfg selfCommit remotes w true = (w', Except.ok ()))
    (h2 : (GitCache._checkout cfg selfCommit w nr).2 = Except.ok c) :
    git.read_ref w' GitCache.checkout_rev =
      some (pyOr cfg.recipeCommitOverride selfCommit) ∧
    c = pyOr cfg.recipeCommitOverride selfCommit := by
  refine ⟨?_, GitCache._checkout_ok_val cfg selfCommit w nr c h2⟩
  simp only [GitCache.fetch, if_true] at h1
  split at h1
  case _ wk commit heq =>
    obtain ⟨hw, -⟩ := Prod.mk.injEq .. ▸ h1
    have hc : commit = pyOr cfg.recipeCommitOverride selfCommit :=
      GitCache._checkout_ok_val _ _ _ _ _ (by rw [heq])
    rw [← hw, hc, git.read_ref_write_ref]
  case _ e heq =>
    exact absurd (congrArg Prod.snd h1) (by simp)

/-- Witness for C5 (amended) on `cleanWorld` with one remote. -/
theorem claim_C5_witness :
    git.read_ref
        (GitCache.fetch ⟨none, false⟩ "origin/b" [("origin", "u")]
            cleanWorld true).1 GitCache.checkout_rev = some "origin/b" ∧
    "origin/b" = ("origin/b" : String) :=
  claim_C5_amended ⟨none, false⟩ "origin/b" [("origin", "u")] cleanWorld
    (GitCache.fetch ⟨none, false⟩ "origin/b" [("origin", "u")]
        cleanWorld true).1 false "origin/b" rfl rfl

/-- Concrete state for the C6 counterexample: HEAD `c1` and the target
expression `origin/b` resolving to that same commit `c1`; marker valid,
no local commits. -/
def sameCommitWorld : GitRepoState :=
  { baseWorld with
      refs := [("cerbero-checkout", "m1")],
      resolve := fun s => if s = "origin/b" then "c1" else s,
      isAncestor := fun _ _ => true }

/-- C6 (counterexample): on `sameCommitWorld` HEAD already equals the
resolved target revision, yet `_checkout` performs a hard reset (the
string comparison `commit == head` sees the unresolved expression); and
even when the expression string-equals HEAD, `fetch` still writes the
marker ref — a repository mutation. -/
theorem claim_C6_cex :
    git.get_hash sameCommitWorld "origin/b" = sameCommitWorld.headHash ∧
    (GitCache._checkout ⟨none, false⟩ "origin/b" sameCommitWorld false).1.log =
        [GitOp.resetHard "origin/b"] ∧
    (GitCache.fetch ⟨none, false⟩ "c1" [] baseWorld true).1.log =
        [GitOp.fetchAll, GitOp.writeRef GitCache.checkout_rev "c1"] := by
  exact ⟨rfl, rfl, rfl⟩

/-- C6 (amended): when the target revision expression string-equals the
current HEAD hash, `_checkout` returns the target and the state
completely unchanged (no reset, rebase or ref write); the enclosing
`fetch` still fetches remotes and overwrites the CheckoutMarker ref, and
does nothing else. -/
theorem claim_C6_amended (cfg : Config) (selfCommit : String)
    (w : GitRepoState)
    (hdisk : w.onDisk = true)
    (h : pyOr cfg.recipeCommitOverride selfCommit = w.headHash) :
    GitCache._checkout cfg selfCommit w false =
      (w, Except.ok (pyOr cfg.recipeCommitOverride selfCommit)) ∧
    (GitCache.fetch cfg selfCommit [] w true).1.log =
      w.log ++ [GitOp.fetchAll,
        GitOp.writeRef GitCache.checkout_rev
          (pyOr cfg.recipeCommitOverride selfCommit)] := by
  have key : ∀ w0 : GitRepoState, w0.headHash = w.headHash →
      GitCache._checkout cfg selfCommit w0 false =
        (w0, Except.ok (pyOr cfg.recipeCommitOverride selfCommit)) := by
    intro w0 h0
    simp [GitCache._checkout, git.get_hash, h, h0]
  refine ⟨key w rfl, ?_⟩
  simp only [GitCache.fetch, hdisk, Bool.true_eq_false, if_false,
    List.foldl_nil, if_true]
  rw [key (git.fetch w false) rfl]
  simp [git.write_ref, git.fetch, List.append_assoc]

/-- Witness for C6 (amended) at `baseWorld` with the target given as the
very hash HEAD is at. -/
theorem claim_C6_witness :
    GitCache._checkout ⟨none, false⟩ "c1" baseWorld false =
      (baseWorld, Except.ok "c1") ∧
    (GitCache.fetch ⟨none, false⟩ "c1" [] baseWorld true).1.log =
      baseWorld.log ++ [GitOp.fetchAll,
        GitOp.writeRef GitCache.checkout_rev "c1"] :=
  claim_C6_amended ⟨none, false⟩ "c1" baseWorld rfl rfl

/-- C7 (code bug): none of the six git helpers named by the claim is
among the functions defined in cerbero/utils/git.py, although every one
of them is invoked along `GitCache`'s existing-repository
synchronization path (`read_ref` first, before any decision logic). -/
theorem claim_C7_bug :
    (["read_ref", "write_ref", "rev_list", "revision_is_ancestor",
      "rebase", "rebase_abort"].all
        (fun n => !(gitModuleDefs.contains n))) = true ∧
    (["read_ref", "write_ref", "rev_list", "revision_is_ancestor",
      "rebase", "rebase_abort"].all
        (fun n => gitCacheSyncHelpers.contains n)) = true := by
  decide

/-- The cache layout for the C8 evaluation: the cache root holds the
archive, one common patch and a stray file; the platform subdirectory is
absent. -/
def localCacheFS : FileSys :=
  { dirs := [("repo", ["pkg-1.0.tar.gz", "foo.patch", "README"])] }

/-- C8 (code bug): on `localCacheFS` extract succeeds, walks the root
tier (its single `.patch` file) and silently skips the absent platform
tier — but each `shell.apply_patch` call carries the build directory as
its first positional argument and the patch file as its second, so read
through the Patch Applier contract `apply(patchPath, targetDir, strip)`
the "patch" handed down is the build directory, not a `.patch` file. -/
theorem claim_C8_bug :
    LocalTarball.extract localCacheFS "bdir" "repo" "repo/linux" "pkg"
        "srcdir" =
      Except.ok [ShellCall.unpack "repo/pkg-1.0.tar.gz" "srcdir",
                 ShellCall.apply_patch "bdir" "repo/foo.patch"] ∧
    FileSys.isdir localCacheFS "repo/linux" = false ∧
    (interpApplyCall (ShellCall.apply_patch "bdir" "repo/foo.patch")).map
        PatchApply.patchPath = some "bdir" ∧
    pyEndsWith "bdir" ".patch" = false := by
  exact ⟨rfl, rfl, rfl, by decide⟩

/-- Concrete state for C9: `origin/b` resolves to a full 40-character
commit hash. -/
def hashWorld : GitRepoState :=
  { baseWorld with
      resolve := fun s =>
        if s = "origin/b"
        then "0123456789abcdef0123456789abcdef01234567" else s }

/-- A second state resolving a different expression to the same hash,
exercising purity in the resolved commit. -/
def hashWorld2 : GitRepoState :=
  { baseWorld with
      resolve := fun _ => "0123456789abcdef0123456789abcdef01234567" }

/-- C9 (counterexample): the built version carries the full 40-character
hash of the resolved commit, not its 7-character short form as the claim
states. -/
theorem claim_C9_cex :
    GitCache.built_version "1.0" hashWorld "origin/b" =
      "1.0+git~0123456789abcdef0123456789abcdef01234567" ∧
    "1.0" ++ "+git~" ++ shortHash (git.get_hash hashWorld "origin/b") =
      "1.0+git~0123456" ∧
    GitCache.built_version "1.0" hashWorld "origin/b" ≠
      "1.0" ++ "+git~" ++ shortHash (git.get_hash hashWorld "origin/b") := by
  refine ⟨rfl, rfl, by decide⟩

/-- C9 (amended): `built_version` is a pure function of the recipe
version and the resolved commit hash — two states/expressions resolving
to the identical hash yield the identical string — and the string is the
version combined with the full hash of the resolved commit. -/
theorem claim_C9_amended (v c1 c2 : String) (w1 w2 : GitRepoState)
    (h : git.get_hash w1 c1 = git.get_hash w2 c2) :
    GitCache.built_version v w1 c1 = GitCache.built_version v w2 c2 ∧
    GitCache.built_version v w1 c1 = v ++ "+git~" ++ git.get_hash w1 c1 := by
  unfold GitCache.built_version
  rw [h]
  exact ⟨rfl, rfl⟩

/-- Witness for C9 (amended): two states resolving different expressions
to the same hash produce the same built version. -/
theorem claim_C9_witness :
    GitCache.built_version "1.0" hashWorld "origin/b" =
      GitCache.built_version "1.0" hashWorld2 "other" ∧
    GitCache.built_version "1.0" hashWorld "origin/b" =
      "1.0" ++ "+git~" ++ git.get_hash hashWorld "origin/b" :=
  claim_C9_amended "1.0" "origin/b" "other" hashWorld hashWorld2 rfl

/-- C10: each declared patch is dispatched on the strip count — strip 1
gives the commit-preserving `git am` application, any other strip the
generic text-patch application with that strip count — and a
non-absolute path is first resolved against the recipe's declared patch
directory. -/
theorem claim_C10 (patches : List String) (strip : Nat)
    (patch_dir build_dir p : String) (hp : p ∈ patches) :
    (strip = 1 →
      PatchCall.gitAm
        (if os.path.isabs p = false
         then Source.relative_path patch_dir p else p) build_dir ∈
        Git.patchCalls patches strip patch_dir build_dir) ∧
    (strip ≠ 1 →
      PatchCall.textPatch
        (if os.path.isabs p = false
         then Source.relative_path patch_dir p else p) build_dir strip ∈
        Git.patchCalls patches strip patch_dir build_dir) ∧
    (os.path.isabs p = false →
      (if os.path.isabs p = false
       then Source.relative_path patch_dir p else p) =
        patch_dir ++ "/" ++ p) := by
  refine ⟨?_, ?_, ?_⟩
  · intro h1
    subst h1
    unfold Git.patchCalls
    refine List.mem_map.mpr ⟨p, hp, ?_⟩
    simp [git.apply_patch]
  · intro h1
    unfold Git.patchCalls
    refine List.mem_map.mpr ⟨p, hp, ?_⟩
    simp [shell.apply_patch3, h1]
  · intro h1
    simp [h1, Source.relative_path]

/-- Witness for C10: a relative patch under strip 1 goes through
`git am` at its resolved path; under strip 2 it goes through the text
patcher with strip 2. -/
theorem claim_C10_witness :
    PatchCall.gitAm "patches/a.patch" "bdir" ∈
      Git.patchCalls ["a.patch"] 1 "patches" "bdir" ∧
    PatchCall.textPatch "patches/b.patch" "bdir" 2 ∈
      Git.patchCalls ["b.patch"] 2 "patches" "bdir" :=
  ⟨(claim_C10 ["a.patch"] 1 "patches" "bdir" "a.patch" (by simp)).1 rfl,
   (claim_C10 ["b.patch"] 2 "patches" "bdir" "b.patch" (by simp)).2.1
     (by decide)⟩

end Cerbero
